import Mathlib

/-!
Verification development for the prayer-bot repository
(`src/WhatsAppBot.ts` and `src/index.ts`, given as `src/unnamed/part_004`).

Each definition below is a shallow embedding of a function or handler of the
source; the doc comment of each definition names the source location it embeds.
-/

namespace PrayerBot

/-- Errors thrown by the bot, classified by throw site in `src/WhatsAppBot.ts`:
`notInitialized` is the `ensureInitialized` throw
(`Bot is not initialized. Call initialize() first.`, line 464);
`validation` covers the two poll-option-count throws in `sendPoll`
(lines 303-308); `send` covers the catch-block rethrows
(`Failed to send poll/message: ...`, lines 276 and 328). -/
inductive BotError
  | notInitialized
  | validation (msg : String)
  | send (msg : String)
deriving DecidableEq, Repr

/-- A call actually handed to the underlying whatsapp-web.js transport
(`this.client.sendMessage(...)`). Recording these calls lets theorems state
that the transport is, or is not, invoked. -/
inductive TransportCall
  | messageCall (chatId content : String)
  | pollCall (chatId question : String) (options : List String) (allowMultiple : Bool)
deriving DecidableEq, Repr

/-- Outcome of one underlying `client.sendMessage` transport call, supplied by
the environment: an acknowledgment (the sent `Message`) or a thrown error. -/
inductive TransportResult
  | ack (messageId : String)
  | failure (msg : String)
deriving DecidableEq, Repr

/-- The mutable state of a `WhatsAppBot` instance that the send path consults:
the `isInitialized` flag (`src/WhatsAppBot.ts` line 97), set `true` only by the
`ready` handler (line 173) and `false` by the `disconnected` handler (line 190)
and by `destroy()` (line 420). -/
structure BotState where
  isInitialized : Bool
deriving DecidableEq, Repr

/-- `WhatsAppBot.ensureInitialized` (`src/WhatsAppBot.ts` lines 462-466):
throws when `isInitialized` is false. -/
def ensureInitialized (b : BotState) : Except BotError Unit :=
  if b.isInitialized then .ok () else .error .notInitialized

/-- `SendPollOptions` (`src/WhatsAppBot.ts` lines 57-66). -/
structure SendPollOptions where
  chatId : String
  question : String
  options : List String
  allowMultipleAnswers : Bool
deriving DecidableEq, Repr

/-- `SendMessageOptions` (`src/WhatsAppBot.ts` lines 43-52); the optional
mention/quote fields are omitted because no code path relevant to the claims
sets them. -/
structure SendMessageOptions where
  chatId : String
  content : String
deriving DecidableEq, Repr

/-- `WhatsAppBot.sendPoll` (`src/WhatsAppBot.ts` lines 297-330), embedded with
the list of transport calls it makes. Exactly as in the source:
`ensureInitialized()` runs first, then the `< 2` check, then the `> 12` check,
then `client.sendMessage(chatId, poll)`; a transport failure is rethrown as
`Failed to send poll: ...`. There is no check on `chatId`. -/
def sendPoll (b : BotState) (o : SendPollOptions) (t : TransportResult) :
    Except BotError String × List TransportCall :=
  match ensureInitialized b with
  | .error e => (.error e, [])
  | .ok () =>
    if o.options.length < 2 then
      (.error (.validation "Poll must have at least 2 options"), [])
    else if o.options.length > 12 then
      (.error (.validation "Poll cannot have more than 12 options"), [])
    else
      let call := TransportCall.pollCall o.chatId o.question o.options o.allowMultipleAnswers
      match t with
      | .ack id => (.ok id, [call])
      | .failure m => (.error (.send ("Failed to send poll: " ++ m)), [call])

/-- `WhatsAppBot.sendMessage` (`src/WhatsAppBot.ts` lines 248-278):
`ensureInitialized()` first, then `client.sendMessage(chatId, content, ...)`;
a transport failure is rethrown as `Failed to send message: ...`. -/
def sendMessage (b : BotState) (o : SendMessageOptions) (t : TransportResult) :
    Except BotError String × List TransportCall :=
  match ensureInitialized b with
  | .error e => (.error e, [])
  | .ok () =>
    let call := TransportCall.messageCall o.chatId o.content
    match t with
    | .ack id => (.ok id, [call])
    | .failure m => (.error (.send ("Failed to send message: " ++ m)), [call])

/-- Claim C2 (counterexample): with a not-Ready session and an empty options
list (option count out of range), `sendPoll` raises `NotInitializedError`, not
the `ValidationError` for the option count that the claim requires. -/
theorem sendPoll_notReady_overrides_count :
    (sendPoll ⟨false⟩ ⟨"123@c.us", "q", [], false⟩ (.ack "id")).1
      = .error .notInitialized
  ∧ (sendPoll ⟨false⟩ ⟨"123@c.us", "q", [], false⟩ (.ack "id")).1
      ≠ .error (.validation "Poll must have at least 2 options") := by
  constructor
  · rfl
  · simp [sendPoll, ensureInitialized]

/-- Claim C2 (amended): in `sendPoll` the session-Ready check runs first
(failing with `NotInitializedError`), then the lower option-count bound
(`< 2`, `ValidationError`), then the upper bound (`> 12`, `ValidationError`);
there is no target (chatId) non-emptiness check — with a Ready session and an
in-range option count the transport call is made even for an empty chatId.
When both the option count is out of range and the session is not Ready,
`NotInitializedError` is raised. -/
theorem sendPoll_check_order (b : BotState) (o : SendPollOptions) (t : TransportResult) :
    (b.isInitialized = false → sendPoll b o t = (.error .notInitialized, []))
  ∧ (b.isInitialized = true → o.options.length < 2 →
      sendPoll b o t = (.error (.validation "Poll must have at least 2 options"), []))
  ∧ (b.isInitialized = true → 2 ≤ o.options.length → 12 < o.options.length →
      sendPoll b o t = (.error (.validation "Poll cannot have more than 12 options"), []))
  ∧ (b.isInitialized = true → 2 ≤ o.options.length → o.options.length ≤ 12 →
      (sendPoll b o t).2
        = [TransportCall.pollCall o.chatId o.question o.options o.allowMultipleAnswers]) := by
  obtain ⟨bi⟩ := b
  refine ⟨?_, ?_, ?_, ?_⟩
  · intro h; subst h; rfl
  · intro h hlt; subst h
    simp [sendPoll, ensureInitialized, hlt]
  · intro h hge hgt; subst h
    simp [sendPoll, ensureInitialized, Nat.not_lt.mpr hge, hgt]
  · intro h hge hle; subst h
    simp only [sendPoll, ensureInitialized, if_true]
    rw [if_neg (Nat.not_lt.mpr hge), if_neg (Nat.not_lt.mpr hle)]
    cases t <;> rfl

/-- Claim C2 (witness for the amended theorem): concrete instances — a
not-Ready session with an empty options list yields `NotInitializedError`,
and a Ready session with an empty-string chatId and two options still reaches
the transport (no target check). -/
theorem sendPoll_check_order_witness :
    sendPoll ⟨false⟩ ⟨"123@c.us", "q", [], false⟩ (.ack "id")
      = (.error .notInitialized, [])
  ∧ (sendPoll ⟨true⟩ ⟨"", "q", ["a", "b"], true⟩ (.ack "id")).2
      = [TransportCall.pollCall "" "q" ["a", "b"] true] :=
  ⟨(sendPoll_check_order ⟨false⟩ ⟨"123@c.us", "q", [], false⟩ (.ack "id")).1 rfl,
   (sendPoll_check_order ⟨true⟩ ⟨"", "q", ["a", "b"], true⟩ (.ack "id")).2.2.2
     rfl (by decide) (by decide)⟩

/-- Claim C6: with the session Ready, an options list of length strictly less
than 2 or strictly greater than 12 makes `sendPoll` raise a `ValidationError`
and the underlying transport send is never invoked for that call. -/
theorem poll_count_validated_before_send (b : BotState) (o : SendPollOptions)
    (t : TransportResult) (hready : b.isInitialized = true)
    (hlen : o.options.length < 2 ∨ 12 < o.options.length) :
    ((sendPoll b o t).1 = .error (.validation "Poll must have at least 2 options")
      ∨ (sendPoll b o t).1 = .error (.validation "Poll cannot have more than 12 options"))
  ∧ (sendPoll b o t).2 = [] := by
  obtain ⟨bi⟩ := b
  subst hready
  rcases hlen with hlt | hgt
  · exact ⟨Or.inl (by simp [sendPoll, ensureInitialized, hlt]),
      by simp [sendPoll, ensureInitialized, hlt]⟩
  · have hge : ¬ o.options.length < 2 := by omega
    exact ⟨Or.inr (by simp [sendPoll, ensureInitialized, hge, hgt]),
      by simp [sendPoll, ensureInitialized, hge, hgt]⟩

/-- Claim C6 (witness): a Ready session and a 13-option list — `sendPoll`
raises the upper-bound `ValidationError` and makes no transport call. -/
theorem poll_count_validated_before_send_witness :
    ((sendPoll ⟨true⟩ ⟨"123@c.us", "q", List.replicate 13 "x", false⟩ (.ack "id")).1
        = .error (.validation "Poll must have at least 2 options")
      ∨ (sendPoll ⟨true⟩ ⟨"123@c.us", "q", List.replicate 13 "x", false⟩ (.ack "id")).1
        = .error (.validation "Poll cannot have more than 12 options"))
  ∧ (sendPoll ⟨true⟩ ⟨"123@c.us", "q", List.replicate 13 "x", false⟩ (.ack "id")).2 = [] :=
  poll_count_validated_before_send ⟨true⟩ ⟨"123@c.us", "q", List.replicate 13 "x", false⟩
    (.ack "id") rfl (by decide)

/-- The session lifecycle states of spec §3 / §4.2. The code keeps only the
boolean `isInitialized`; these labels name the phases of the transport event
flow that the code wires in `setupEventListeners`
(`src/WhatsAppBot.ts` lines 142-193). -/
inductive SessionState
  | uninitialized
  | authenticating
  | authenticated
  | ready
  | disconnected
deriving DecidableEq, Repr

/-- The lifecycle events the client delivers (plus the `initialize()` call):
`initCall` = `client.initialize()`, `credSuccess` = the `authenticated` event,
`credFailure` = the `auth_failure` event, `transportReady` = the `ready`
event, `transportDisconnect` = the `disconnected` event. -/
inductive SessionEvent
  | initCall
  | credSuccess
  | credFailure
  | transportReady
  | transportDisconnect
deriving DecidableEq, Repr

/-- The session state machine of spec §4.2 (which transport event moves the
session between which lifecycle phases); `none` for an event the state does
not expect. -/
def specStep : SessionState → SessionEvent → Option SessionState
  | .uninitialized, .initCall => some .authenticating
  | .authenticating, .credSuccess => some .authenticated
  | .authenticating, .credFailure => some .uninitialized
  | .authenticated, .transportReady => some .ready
  | .ready, .transportDisconnect => some .disconnected
  | .disconnected, .initCall => some .authenticating
  | _, _ => none

/-- The code's update of `isInitialized` per event, read off
`setupEventListeners` (`src/WhatsAppBot.ts`): the `ready` handler sets it
`true` (line 173), the `disconnected` handler sets it `false` (line 190), no
other handler touches it. -/
def flagEffect (b : Bool) : SessionEvent → Bool
  | .transportReady => true
  | .transportDisconnect => false
  | _ => b

/-- A (state, `isInitialized`) pair reachable from construction
(`isInitialized = false`, `src/WhatsAppBot.ts` line 97) along the lifecycle
transitions, with the flag updated as the code's handlers do. -/
inductive SessReachable : SessionState → Bool → Prop
  | start : SessReachable .uninitialized false
  | step {st : SessionState} {b : Bool} {e : SessionEvent} {st2 : SessionState} :
      SessReachable st b → specStep st e = some st2 → SessReachable st2 (flagEffect b e)

/-- Along every reachable lifecycle history, the code's `isInitialized` flag
is `true` exactly in the `Ready` state. -/
theorem sessReachable_flag {st : SessionState} {b : Bool} (h : SessReachable st b) :
    b = decide (st = .ready) := by
  induction h with
  | start => rfl
  | step hp hs ih =>
    rename_i st b e st2
    subst ih
    cases st <;> cases e <;> simp only [specStep, Option.some.injEq] at hs <;>
      first
      | exact Option.noConfusion hs
      | (subst hs; rfl)

/-- Claim C3: in every reachable session state other than `Ready`
(`Uninitialized`, `Authenticating`, `Authenticated`, `Disconnected` — in all
of which the code's `isInitialized` flag is false), both `sendMessage` and
`sendPoll` fail with `NotInitializedError` and make no transport call (nothing
is queued); and a send can return `ok` only in the `Ready` state. -/
theorem sends_require_ready (st : SessionState) (b : Bool)
    (hr : SessReachable st b) (o : SendPollOptions) (m : SendMessageOptions)
    (t1 t2 : TransportResult) :
    (st ≠ .ready →
        sendPoll ⟨b⟩ o t1 = (.error .notInitialized, [])
      ∧ sendMessage ⟨b⟩ m t2 = (.error .notInitialized, []))
  ∧ (∀ r, (sendPoll ⟨b⟩ o t1).1 = .ok r → st = .ready)
  ∧ (∀ r, (sendMessage ⟨b⟩ m t2).1 = .ok r → st = .ready) := by
  have hb := sessReachable_flag hr
  subst hb
  by_cases hst : st = .ready
  · subst hst
    refine ⟨fun hc => absurd rfl hc, fun _ _ => rfl, fun _ _ => rfl⟩
  · rw [decide_eq_false hst]
    refine ⟨fun _ => ⟨rfl, rfl⟩, ?_, ?_⟩
    · intro r hok
      exact absurd hok (by simp [sendPoll, ensureInitialized])
    · intro r hok
      exact absurd hok (by simp [sendMessage, ensureInitialized])

/-- Claim C3 (witness): the state `Disconnected` (reached by initialize →
credential success → transport ready → transport disconnect, as after a
transport disconnect event) with the flag the handlers leave (`false`):
`sendPoll` and `sendMessage` fail with `NotInitializedError` and make no
transport call. -/
theorem sends_require_ready_witness :
    sendPoll ⟨false⟩ ⟨"123@c.us", "q", ["a", "b"], false⟩ (.ack "id")
      = (.error .notInitialized, [])
  ∧ sendMessage ⟨false⟩ ⟨"123@c.us", "hi"⟩ (.ack "id")
      = (.error .notInitialized, []) := by
  have h1 : SessReachable .authenticating false :=
    SessReachable.step (e := .initCall) SessReachable.start rfl
  have h2 : SessReachable .authenticated false :=
    SessReachable.step (e := .credSuccess) h1 rfl
  have h3 : SessReachable .ready true :=
    SessReachable.step (e := .transportReady) h2 rfl
  have h4 : SessReachable .disconnected false :=
    SessReachable.step (e := .transportDisconnect) h3 rfl
  exact (sends_require_ready .disconnected false h4
    ⟨"123@c.us", "q", ["a", "b"], false⟩ ⟨"123@c.us", "hi"⟩
    (.ack "id") (.ack "id")).1 (by decide)

/-- One node-cron `ScheduledTask`: `cron.schedule(..., { scheduled: true })`
creates it running; `task.stop()` clears the running flag (and stopping an
already-stopped task is a no-op). -/
structure CronTask where
  running : Bool
deriving DecidableEq, Repr

/-- The scheduling state of a `PrayerReminderBot` instance: every cron task
ever created by `cron.schedule` (in creation order — node-cron keeps a task
alive until it is stopped, whether or not the bot still references it), and
`ref`, the index held by the `this.scheduledTask` field
(`src/index.ts` line 506, initially `null`). -/
structure SchedulerState where
  tasks : List CronTask
  ref : Option Nat
deriving DecidableEq, Repr

/-- The scheduler state at construction: no task created,
`this.scheduledTask = null`. -/
def emptyScheduler : SchedulerState := ⟨[], none⟩

/-- Number of schedules currently armed (created and not stopped). -/
def armedCount (s : SchedulerState) : Nat :=
  s.tasks.countP (·.running)

/-- `PrayerReminderBot.scheduleDailyPoll` (`src/index.ts` lines 612-622):
`this.scheduledTask = cron.schedule(pattern, callback, { scheduled: true,
timezone })` — unconditionally creates a new running task and overwrites the
`scheduledTask` reference. There is no armed-check and no error path: the
function cannot fail. -/
def scheduleDailyPoll (s : SchedulerState) : SchedulerState :=
  { tasks := s.tasks ++ [⟨true⟩], ref := some s.tasks.length }

/-- The guarded stop `if (this.scheduledTask) { this.scheduledTask.stop(); }`
that appears in the `onDisconnected` handler (`src/index.ts` lines 601-603)
and in `stop()` (lines 716-719): stops the referenced task if there is one;
never raises. -/
def stopScheduledTask (s : SchedulerState) : SchedulerState :=
  match s.ref with
  | none => s
  | some i => { s with tasks := s.tasks.set i ⟨false⟩ }

/-- Claim C5 (counterexample): from the scheduler's initial state, arming
twice (as on a second `ready` event) raises nothing and leaves two armed
schedules — contradicting both "re-arming fails with InvalidStateError" and
"at most one schedule is armed per scheduler instance". -/
theorem rearm_no_error_two_armed :
    armedCount (scheduleDailyPoll (scheduleDailyPoll emptyScheduler)) = 2
  ∧ ¬ armedCount (scheduleDailyPoll (scheduleDailyPoll emptyScheduler)) ≤ 1 := by
  constructor
  · rfl
  · decide

/-- Claim C5 (amended): `scheduleDailyPoll` has no armed-check and no error
path: every call (also while a schedule is already armed, e.g. on a second
ready event after reconnection) creates and starts one more schedule and
overwrites the stored reference, so after a second call two schedules are
armed simultaneously. -/
theorem rearm_adds_schedule (s : SchedulerState) :
    armedCount (scheduleDailyPoll s) = armedCount s + 1
  ∧ (scheduleDailyPoll s).ref = some s.tasks.length
  ∧ armedCount (scheduleDailyPoll (scheduleDailyPoll emptyScheduler)) = 2 := by
  refine ⟨?_, rfl, rfl⟩
  simp [armedCount, scheduleDailyPoll, List.countP_append]

/-- Claim C8: the disarm operation (the guarded
`if (this.scheduledTask) this.scheduledTask.stop()`) is idempotent — from
every scheduler state, armed or not, calling it twice yields exactly the
state one call yields, and it has no error path (it is a total function into
states, not an `Except`). -/
theorem stop_idempotent (s : SchedulerState) :
    stopScheduledTask (stopScheduledTask s) = stopScheduledTask s := by
  obtain ⟨tasks, ref⟩ := s
  cases ref with
  | none => rfl
  | some i => simp [stopScheduledTask, List.set_set]

/-- The application state the `disconnected` event touches: the bot's
`isInitialized` flag, the `PrayerReminderBot` scheduling state, and whether
the process is alive. -/
structure AppState where
  bot : BotState
  sched : SchedulerState
  processAlive : Bool
deriving DecidableEq, Repr

/-- The full handler chain for the transport `disconnected` event:
`WhatsAppBot`'s listener (`src/WhatsAppBot.ts` lines 186-192) sets
`isInitialized = false` and invokes the registered `onDisconnected` callback;
`PrayerReminderBot`'s callback (`src/index.ts` lines 596-604) logs and runs
`if (this.scheduledTask) { this.scheduledTask.stop(); }`. Neither calls
`process.exit`. -/
def handleDisconnected (s : AppState) : AppState :=
  { bot := ⟨false⟩,
    sched := stopScheduledTask s.sched,
    processAlive := s.processAlive }

/-- An app state with the bot ready and exactly one armed schedule,
referenced by `scheduledTask` — the normal state after the first `ready`
event. -/
def armedApp : AppState := ⟨⟨true⟩, ⟨[⟨true⟩], some 0⟩, true⟩

/-- Claim C4 (counterexample): delivering a transport disconnection in the
normal armed state stops the armed schedule — the armed count drops from 1 to
0 — contradicting "the armed schedule is left armed (nothing is disarmed
automatically)". -/
theorem disconnect_disarms_schedule :
    armedCount armedApp.sched = 1
  ∧ armedCount (handleDisconnected armedApp).sched = 0 := by
  constructor <;> rfl

/-- Claim C4 (amended): the disconnection handler chain changes the session
state (`isInitialized := false`, making further sends fail with
`NotInitializedError` until re-initialization) AND stops the referenced
scheduled task (the schedule is disarmed automatically); the process does not
terminate. -/
theorem disconnect_effects (s : AppState) (o : SendPollOptions) (t : TransportResult) :
    (handleDisconnected s).bot.isInitialized = false
  ∧ (handleDisconnected s).processAlive = s.processAlive
  ∧ (∀ i, s.sched.ref = some i → i < s.sched.tasks.length →
      ((handleDisconnected s).sched.tasks[i]? = some ⟨false⟩))
  ∧ (sendPoll (handleDisconnected s).bot o t).1 = .error .notInitialized := by
  refine ⟨rfl, rfl, ?_, rfl⟩
  intro i hi hlt
  simp [handleDisconnected, stopScheduledTask, hi, List.getElem?_set, hlt]

/-- Claim C4 (witness for the amended theorem): in the concrete armed state,
after a disconnect the flag is down, the process is alive, the referenced
task is stopped, and a send fails with `NotInitializedError`. -/
theorem disconnect_effects_witness :
    (handleDisconnected armedApp).bot.isInitialized = false
  ∧ (handleDisconnected armedApp).processAlive = armedApp.processAlive
  ∧ (handleDisconnected armedApp).sched.tasks[0]? = some ⟨false⟩
  ∧ (sendPoll (handleDisconnected armedApp).bot
      ⟨"123@c.us", "q", ["a", "b"], false⟩ (.ack "id")).1 = .error .notInitialized := by
  obtain ⟨h1, h2, h3, h4⟩ :=
    disconnect_effects armedApp ⟨"123@c.us", "q", ["a", "b"], false⟩ (.ack "id")
  exact ⟨h1, h2, h3 0 rfl (by decide), h4⟩

/-- One atomic step of the interleaved executions of
`sendDailyPrayerPoll` (`src/index.ts` lines 640-676). Both entry points —
the cron timer callback (line 613-615) and the `!prayer` command branch in
the message handler (lines 582-584) — run `await this.sendDailyPrayerPoll()`
directly. `invokeDispatch` is either caller entering the send path (the
method body up to its suspension on `await this.bot.sendPoll(...)`);
`settleDispatch` is one in-flight execution settling (the awaited send
resolving or the catch block completing). Neither class declares any lock,
flag or queue around this path, so `invokeDispatch` is unconditional. -/
inductive DispatchStep
  | invokeDispatch
  | settleDispatch
deriving DecidableEq, Repr

/-- Observable dispatch state: how many executions of the poll send path are
in flight, and how many "skipped" outcomes have been reported to a caller
(the code contains no skip path, so no step ever increments the latter). -/
structure DispatchState where
  inFlight : Nat
  skippedReports : Nat
deriving DecidableEq, Repr

/-- Effect of one step, as the code behaves: an invocation always enters the
send path (there is no lock to check, nothing is skipped and no skipped
outcome is ever produced); a settle ends one in-flight execution. -/
def dispatchStep (s : DispatchState) : DispatchStep → DispatchState
  | .invokeDispatch => { s with inFlight := s.inFlight + 1 }
  | .settleDispatch => { s with inFlight := s.inFlight - 1 }

/-- Run a trace of interleaved dispatch steps from a state. -/
def runDispatch (s : DispatchState) : List DispatchStep → DispatchState
  | [] => s
  | step :: rest => runDispatch (dispatchStep s step) rest

/-- Claim C1 (counterexample): the interleaving in which the timer fires and,
while its send is awaited, the manual trigger invokes the action — both
executions of the poll send path are in flight at once (violating at-most-one)
and no skipped outcome was reported. -/
theorem two_dispatches_in_flight :
    runDispatch ⟨0, 0⟩ [.invokeDispatch, .invokeDispatch] = ⟨2, 0⟩
  ∧ ¬ (runDispatch ⟨0, 0⟩ [.invokeDispatch, .invokeDispatch]).inFlight ≤ 1 := by
  constructor
  · rfl
  · decide

/-- Claim C1 (amended): there is no `DispatchLock` in the code — neither the
timer path nor the manual trigger acquires any lock before invoking the send
path, no invocation is ever skipped or reported as skipped (along every trace
the skipped-report count stays 0), and a second concurrent invocation enters
the send path while the first is still in flight, so two executions can be in
flight at the same time. -/
theorem dispatch_unguarded :
    (∀ tr : List DispatchStep, (runDispatch ⟨0, 0⟩ tr).skippedReports = 0)
  ∧ (runDispatch ⟨0, 0⟩ [.invokeDispatch, .invokeDispatch]).inFlight = 2 := by
  have hgen : ∀ (tr : List DispatchStep) (s : DispatchState),
      (runDispatch s tr).skippedReports = s.skippedReports := by
    intro tr
    induction tr with
    | nil => intro s; rfl
    | cons step rest ih =>
      intro s
      cases step <;> simpa [runDispatch, dispatchStep] using ih _
  exact ⟨fun tr => hgen tr ⟨0, 0⟩, rfl⟩

/-- The fixed acknowledgment string the `!prayer` branch replies with
(`src/index.ts` line 584). -/
def ackText : String := "✅ تم إرسال استطلاع الصلاة! (Prayer poll sent!)"

/-- The fixed help string the `!help` branch replies with
(`src/index.ts` lines 586-591). -/
def helpText : String :=
  "🤖 *Prayer Reminder Bot Commands*\n\n" ++
  "!prayer or !صلاة - Send prayer poll immediately\n" ++
  "!help or !مساعدة - Show this help message\n\n" ++
  "The bot automatically sends prayer polls every day at 9:00 AM 🕘"

/-- What the message handler does for one inbound message, at router level. -/
inductive RouterEffect
  | dispatchPoll
  | reply (text : String)
deriving DecidableEq, Repr

/-- Model of JavaScript `String.prototype.toLowerCase()` as used on inbound
bodies: lower-case each character (`Char.toLower` agrees with JavaScript on
the ASCII aliases and both are the identity on the Arabic ones). Defined over
the character list so it evaluates inside the kernel. -/
def jsToLower (s : String) : String := ⟨s.data.map Char.toLower⟩

/-- The broadcast/system pseudo-sender check of the message handler
(`src/index.ts` line 577): `message.from === 'status@broadcast' ||
message.from.endsWith('@newsletter')`. -/
def isIgnoredSender (sender : String) : Bool :=
  sender == "status@broadcast" || sender.endsWith "@newsletter"

/-- The `onMessage` handler of `PrayerReminderBot`
(`src/index.ts` lines 575-593), as the list of effects it produces:
broadcast/newsletter senders are dropped before any matching; otherwise
`message.body.toLowerCase()` (embedded as `jsToLower body`) is compared for
exact equality against the four aliases; the
`!prayer` branch awaits `sendDailyPrayerPoll()` and then replies with the
acknowledgment (the dispatch catches its own errors, so the reply always
follows); the `!help` branch only replies; anything else falls through with
no effect. -/
def handleMessage (sender body : String) : List RouterEffect :=
  if isIgnoredSender sender then []
  else if jsToLower body == "!prayer" || jsToLower body == "!صلاة" then
    [.dispatchPoll, .reply ackText]
  else if jsToLower body == "!help" || jsToLower body == "!مساعدة" then
    [.reply helpText]
  else []

/-- Claim C7: a broadcast/system pseudo-sender produces no action regardless
of body; otherwise a trigger alias (case-insensitively) produces exactly one
poll dispatch plus one reply with the fixed acknowledgment string, a help
alias produces one reply with the fixed help string and no dispatch, and any
other body produces no reply and no send. -/
theorem message_classification (sender body : String) :
    (isIgnoredSender sender = true → handleMessage sender body = [])
  ∧ (isIgnoredSender sender = false →
        ((jsToLower body = "!prayer" ∨ jsToLower body = "!صلاة") →
          handleMessage sender body = [.dispatchPoll, .reply ackText])
      ∧ ((jsToLower body = "!help" ∨ jsToLower body = "!مساعدة") →
          handleMessage sender body = [.reply helpText])
      ∧ (jsToLower body ≠ "!prayer" → jsToLower body ≠ "!صلاة" →
         jsToLower body ≠ "!help" → jsToLower body ≠ "!مساعدة" →
          handleMessage sender body = [])) := by
  refine ⟨fun hig => by simp [handleMessage, hig], fun hig => ⟨?_, ?_, ?_⟩⟩
  · rintro (h | h) <;> simp [handleMessage, hig, h]
  · rintro (h | h) <;> simp [handleMessage, hig, h]
  · intro h1 h2 h3 h4
    simp [handleMessage, hig, h1, h2, h3, h4]

/-- Claim C7 (witness): concrete messages — a status broadcast is dropped, an
upper-case `!PRAYER` from a chat sender yields one dispatch and the
acknowledgment reply, `!HELP` yields the help reply only, and `!unknown`
yields nothing. -/
theorem message_classification_witness :
    handleMessage "status@broadcast" "!prayer" = []
  ∧ handleMessage "123@c.us" "!PRAYER" = [.dispatchPoll, .reply ackText]
  ∧ handleMessage "123@c.us" "!HELP" = [.reply helpText]
  ∧ handleMessage "123@c.us" "!unknown" = [] :=
  ⟨(message_classification "status@broadcast" "!prayer").1 rfl,
   ((message_classification "123@c.us" "!PRAYER").2 rfl).1 (Or.inl (by decide)),
   (((message_classification "123@c.us" "!HELP").2 rfl).2.1 (Or.inl (by decide))),
   (((message_classification "123@c.us" "!unknown").2 rfl).2.2
     (by decide) (by decide) (by decide) (by decide))⟩

/-- The environment variables the application reads (`src/index.ts`):
`TARGET_CHAT_ID` (line 736), `CRON_PATTERN` and `TIMEZONE` (line 613 and 618,
read later by `scheduleDailyPoll`), `TEST_MODE` (line 568). `none` models an
unset variable. -/
structure EnvConfig where
  targetChatId : Option String
  cronPattern : Option String
  timezone : Option String
  testMode : Option String
deriving DecidableEq, Repr

/-- JavaScript truthiness of an optional env string, as in
`if (!targetChatId)` and `process.env.X || fallback`: unset and the empty
string are falsy. -/
def envTruthy : Option String → Bool
  | none => false
  | some s => s ≠ ""

/-- `process.env.X || fallback` for a string env var. -/
def envOr (v : Option String) (fallback : String) : String :=
  match v with
  | none => fallback
  | some s => if s = "" then fallback else s

/-- Outcome of the startup path: `fatalExit c` is `process.exit(c)` taken in
`main()` before any `PrayerReminderBot` is constructed; `started` records
that the bot was constructed with the given target and `prayerBot.start()`
(hence `bot.initialize()`) was invoked, with the cron pattern, timezone and
test flag the later handlers will resolve. -/
inductive StartupResult
  | fatalExit (code : Nat)
  | started (targetChatId cronPattern timezone : String) (testMode : Bool)
deriving DecidableEq, Repr

/-- Whether startup ended in the error-exit branch. -/
def isFatal : StartupResult → Bool
  | .fatalExit _ => true
  | .started _ _ _ _ => false

/-- `main()` (`src/index.ts` lines 734-771): reads `TARGET_CHAT_ID`; if it is
falsy, logs and `process.exit(1)` — before the `PrayerReminderBot` is
constructed and before `start()`/`initialize()` run. Otherwise it constructs
the bot and starts it; `CRON_PATTERN` and `TIMEZONE` fall back to
`0 9 * * *` / `Africa/Cairo` (line 613 and 618) and `TEST_MODE` is compared
for exact equality with `true` (line 568) — none of them can make startup
fatal. -/
def mainStartup (cfg : EnvConfig) : StartupResult :=
  match cfg.targetChatId with
  | none => .fatalExit 1
  | some t =>
    if t = "" then .fatalExit 1
    else
      .started t (envOr cfg.cronPattern "0 9 * * *")
        (envOr cfg.timezone "Africa/Cairo") (cfg.testMode == some "true")

/-- Claim C9: if `TARGET_CHAT_ID` is absent, `main` takes the error-exit
branch (`process.exit(1)`) before any bot is constructed, so `initialize()`
is never called; and this is the only configuration failure that is fatal —
with any non-empty target, startup proceeds to construction and
`initialize()` whatever the other configuration variables are (absent or
arbitrary). -/
theorem missing_target_fatal (cfg : EnvConfig) :
    (cfg.targetChatId = none → mainStartup cfg = .fatalExit 1)
  ∧ (∀ t, cfg.targetChatId = some t → t ≠ "" →
      isFatal (mainStartup cfg) = false
      ∧ mainStartup cfg
          = .started t (envOr cfg.cronPattern "0 9 * * *")
              (envOr cfg.timezone "Africa/Cairo") (cfg.testMode == some "true")) := by
  constructor
  · intro h
    simp [mainStartup, h]
  · intro t ht hne
    simp [mainStartup, ht, hne, isFatal]

/-- Claim C9 (witness): with `TARGET_CHAT_ID` unset (all other variables set)
startup is the error exit; with only `TARGET_CHAT_ID` set, startup proceeds. -/
theorem missing_target_fatal_witness :
    mainStartup ⟨none, some "0 9 * * *", some "Africa/Cairo", some "true"⟩ = .fatalExit 1
  ∧ isFatal (mainStartup ⟨some "123@g.us", none, none, none⟩) = false :=
  ⟨(missing_target_fatal ⟨none, some "0 9 * * *", some "Africa/Cairo", some "true"⟩).1 rfl,
   ((missing_target_fatal ⟨some "123@g.us", none, none, none⟩).2 "123@g.us" rfl
     (by decide)).1⟩

end PrayerBot
